import Mathlib

/-!
Verification of the Sierra React Native SDK conversation-storage cache and
message bridge, shallowly embedded from `src/models/ConversationStorage.ts`,
`src/Agent.ts`, `src/components/SierraAgentView.tsx` and
`src/models/ConversationTypes.ts`.
-/

namespace SierraSDK

/-- `PersistenceMode` from `src/models/PersistenceMode.ts`:
controls how conversation state is persisted. -/
inductive PersistenceMode where
  | NONE
  | MEMORY
  | DISK
deriving DecidableEq, Repr

/-- A JavaScript plain object `Record<string, string>` modelled as an
association list (first occurrence of a key wins on lookup; assignment updates
in place or appends). -/
abbrev StrRecord := List (String × String)

/-- `cache[key] ?? null`: JS property lookup on a plain object. -/
def recordGet : StrRecord → String → Option String
  | [], _ => none
  | (k0, v0) :: rest, k => if k0 = k then some v0 else recordGet rest k

/-- `cache[key] = value`: JS property assignment on a plain object. -/
def recordSet : StrRecord → String → String → StrRecord
  | [], k, v => [(k, v)]
  | (k0, v0) :: rest, k, v =>
      if k0 = k then (k0, v) :: rest else (k0, v0) :: recordSet rest k v

/-- One asynchronous call scheduled against the caller-supplied
`StorageAdapter` (`adapter.setItem` / `adapter.removeItem`). -/
inductive AdapterCall where
  | set (key value : String)
  | remove (key : String)
deriving DecidableEq, Repr

/-- Hex digit characters as produced by JS when building `\u00XX` escapes. -/
def hexDigitChar (n : Nat) : Char :=
  if n < 10 then Char.ofNat (48 + n) else Char.ofNat (87 + n)

/-- The numeric value of a hex digit character, as read back by the JS string
literal grammar (`0`-`9`, `a`-`f`, `A`-`F`). -/
def hexVal (c : Char) : Option Nat :=
  if 48 ≤ c.toNat ∧ c.toNat ≤ 57 then some (c.toNat - 48)
  else if 97 ≤ c.toNat ∧ c.toNat ≤ 102 then some (c.toNat - 87)
  else if 65 ≤ c.toNat ∧ c.toNat ≤ 70 then some (c.toNat - 55)
  else none

/-- How `JSON.stringify` escapes one character of a string: `"` and `\` get a
backslash, the named control characters use their short escapes, all other
control characters (code points below 32) become `\u00XX`, and every other
character is emitted as itself. -/
def escapeChar (c : Char) : List Char :=
  if c = '"' then ['\\', '"']
  else if c = '\\' then ['\\', '\\']
  else if c = '\n' then ['\\', 'n']
  else if c = '\r' then ['\\', 'r']
  else if c = '\t' then ['\\', 't']
  else if c = Char.ofNat 8 then ['\\', 'b']
  else if c = Char.ofNat 12 then ['\\', 'f']
  else if c.toNat < 32 then
    ['\\', 'u', '0', '0', hexDigitChar (c.toNat / 16), hexDigitChar (c.toNat % 16)]
  else [c]

/-- Escape every character of a string body. -/
def escapeList : List Char → List Char
  | [] => []
  | c :: cs => escapeChar c ++ escapeList cs

/-- `JSON.stringify` applied to a string: the escaped body wrapped in double
quotes. This is the exact text the bridge splices into injected code. -/
def jsonEscapeString (s : String) : String :=
  String.mk ('"' :: (escapeList s.data ++ ['"']))

/-- `JSON.stringify` applied to a flat string-to-string object, as scheduled by
`ConversationStorage.setItem` for the DISK mirror write. -/
def serializeCache (c : StrRecord) : String :=
  "\x7b" ++
    String.intercalate ","
      (c.map (fun kv => jsonEscapeString kv.1 ++ ":" ++ jsonEscapeString kv.2)) ++
    "\x7d"

/-- The state of a `ConversationStorage` instance
(`src/models/ConversationStorage.ts`). `hasAdapter` records whether a
`StorageAdapter` was supplied; `loadStarted` records whether the constructor
assigned `loadPromise` (it stays `null` otherwise, so `waitForLoad` resolves
immediately). -/
structure ConversationStorage where
  mode : PersistenceMode
  cache : StrRecord
  hasAdapter : Bool
  storageKey : String
  loadStarted : Bool
deriving DecidableEq, Repr

namespace ConversationStorage

/-- The `ConversationStorage` constructor: stores mode, key and adapter, and
kicks off `loadFromDisk` only when `mode === DISK && adapter`. -/
def construct (mode : PersistenceMode) (storageKey : String)
    (hasAdapter : Bool) : ConversationStorage :=
  { mode := mode
    cache := []
    hasAdapter := hasAdapter
    storageKey := storageKey
    loadStarted := decide (mode = PersistenceMode.DISK) && hasAdapter }

/-- `waitForLoad` returns `this.loadPromise ?? Promise.resolve()`: it resolves
immediately exactly when no disk load was started. -/
def waitForLoadImmediate (s : ConversationStorage) : Bool :=
  !s.loadStarted

/-- `getItem`: `null` in NONE mode, otherwise `cache[key] ?? null`. -/
def getItem (s : ConversationStorage) (key : String) : Option String :=
  if s.mode = PersistenceMode.NONE then none else recordGet s.cache key

/-- `setItem`: a no-op in NONE mode; otherwise updates the cache synchronously
and, when `mode === DISK && adapter`, schedules one adapter write of the whole
serialized cache under `storageKey`. Returns the new state and the adapter
calls scheduled. -/
def setItem (s : ConversationStorage) (key value : String) :
    ConversationStorage × List AdapterCall :=
  if s.mode = PersistenceMode.NONE then (s, [])
  else
    let s' := { s with cache := recordSet s.cache key value }
    if s.mode = PersistenceMode.DISK ∧ s.hasAdapter = true then
      (s', [AdapterCall.set s.storageKey (serializeCache s'.cache)])
    else (s', [])

/-- `clear`: resets the cache; when `mode === DISK && adapter`, schedules
removal of the adapter entry. -/
def clear (s : ConversationStorage) : ConversationStorage × List AdapterCall :=
  let s' := { s with cache := [] }
  if s.mode = PersistenceMode.DISK ∧ s.hasAdapter = true then
    (s', [AdapterCall.remove s.storageKey])
  else (s', [])

/-- `getAll`: a copy of the cache. -/
def getAll (s : ConversationStorage) : StrRecord :=
  s.cache

end ConversationStorage

/-- JavaScript values as produced by `JSON.parse` (JSON documents). -/
inductive Json where
  | null
  | bool (b : Bool)
  | num (n : Int)
  | str (s : String)
  | arr (elems : List Json)
  | obj (entries : List (String × Json))

/-- JS truthiness of a JSON value (`if (x)`, `x || d`). -/
def jsTruthy : Json → Bool
  | Json.null => false
  | Json.bool b => b
  | Json.num n => !(n = 0)
  | Json.str s => !(s = "")
  | Json.arr _ => true
  | Json.obj _ => true

/-- `x && typeof x === "object" && !Array.isArray(x)`: a truthy non-array
object, i.e. exactly a plain JSON object. -/
def isPlainObject : Json → Bool
  | Json.obj _ => true
  | _ => false

/-- The entries of a JSON object (`[]` for the other shapes; the source only
reads this after `isPlainObject` held). -/
def objEntries : Json → List (String × Json)
  | Json.obj entries => entries
  | _ => []

/-- What the caller-supplied adapter does when `loadFromDisk` awaits
`adapter.getItem(storageKey)`: the promise rejects, or it resolves with
`null` or with a stored string. -/
inductive DiskReadOutcome where
  | rejects
  | value (v : Option String)

/-- The body of `ConversationStorage.loadFromDisk` before its `catch` clause.
`JSON.parse` is a JS builtin, so it enters the model as an oracle
`parse : String → Option Json` (`none` meaning the parse throws). An
`Except.error` is an exception reaching the `catch`. -/
def loadFromDiskBody (read : DiskReadOutcome) (parse : String → Option Json) :
    Except String (List (String × Json)) :=
  match read with
  | DiskReadOutcome.rejects => Except.error "adapter read rejected"
  | DiskReadOutcome.value none => Except.ok []
  | DiskReadOutcome.value (some stored) =>
      if stored = "" then Except.ok []
      else
        match parse stored with
        | none => Except.error "JSON.parse threw"
        | some parsed =>
            Except.ok (if isPlainObject parsed then objEntries parsed else [])

/-- `loadFromDisk` with its `catch`: every exception is logged as a warning
and the cache stays empty; the promise `waitForLoad` hands out therefore
always resolves (`Except.ok`), never rejects. -/
def loadFromDisk (read : DiskReadOutcome) (parse : String → Option Json) :
    Except String (List (String × Json)) :=
  match loadFromDiskBody read parse with
  | Except.error _ => Except.ok []
  | Except.ok cache => Except.ok cache

/-- The fields of `AgentConfig` the storage-owning `Agent` constructor reads
(`src/models/AgentConfig.ts`, `src/Agent.ts`). -/
structure AgentConfig where
  url : String
  token : String
  persistence : PersistenceMode
deriving DecidableEq, Repr

/-- The storage-relevant state of a constructed `Agent`. -/
structure AgentState where
  storage : ConversationStorage
deriving DecidableEq, Repr

/-- The `Agent` constructor (`src/Agent.ts`): throws a configuration error
when `config.persistence === PersistenceMode.DISK && !storageAdapter`,
otherwise constructs a `ConversationStorage` over
`sierra_chat_` + `config.token`. -/
def Agent.construct (config : AgentConfig) (hasStorageAdapter : Bool) :
    Except String AgentState :=
  if config.persistence = PersistenceMode.DISK ∧ hasStorageAdapter = false then
    Except.error
      "storageAdapter is required for PersistenceMode.DISK. Either provide a storage adapter (e.g., AsyncStorage), or use PersistenceMode.MEMORY or PersistenceMode.NONE."
  else
    Except.ok
      { storage :=
          ConversationStorage.construct config.persistence
            ("sierra_chat_" ++ config.token) hasStorageAdapter }

/-- Scan the body of a JS string literal after its opening quote, per the JS
string-literal grammar restricted to the escapes `JSON.stringify` emits:
returns the decoded content together with everything after the closing quote,
or `none` when the text is not a well-formed literal (unterminated, bad
escape, or a raw control character, which JS rejects inside a literal). -/
def scanJsString : List Char → Option (List Char × List Char)
  | [] => none
  | c :: cs =>
    if c = '"' then some ([], cs)
    else if c = '\\' then
      match cs with
      | [] => none
      | e :: cs2 =>
        if e = '"' then (scanJsString cs2).map (fun r => ('"' :: r.1, r.2))
        else if e = '\\' then (scanJsString cs2).map (fun r => ('\\' :: r.1, r.2))
        else if e = 'n' then (scanJsString cs2).map (fun r => ('\n' :: r.1, r.2))
        else if e = 'r' then (scanJsString cs2).map (fun r => ('\r' :: r.1, r.2))
        else if e = 't' then (scanJsString cs2).map (fun r => ('\t' :: r.1, r.2))
        else if e = 'b' then
          (scanJsString cs2).map (fun r => (Char.ofNat 8 :: r.1, r.2))
        else if e = 'f' then
          (scanJsString cs2).map (fun r => (Char.ofNat 12 :: r.1, r.2))
        else if e = 'u' then
          match cs2 with
          | h1 :: h2 :: h3 :: h4 :: cs6 =>
            match hexVal h1, hexVal h2, hexVal h3, hexVal h4 with
            | some a, some b, some c3, some d =>
                (scanJsString cs6).map
                  (fun r => (Char.ofNat (4096 * a + 256 * b + 16 * c3 + d) :: r.1, r.2))
            | _, _, _, _ => none
          | _ => none
        else none
    else if c.toNat < 32 then none
    else (scanJsString cs).map (fun r => (c :: r.1, r.2))

/-- Evaluate a complete JS string literal: an opening quote, a well-formed
body, a closing quote, and nothing after it. A text that "breaks out" of the
literal (leaving trailing code after the closing quote) evaluates to `none`. -/
def parseJsStringLit (s : String) : Option String :=
  match s.data with
  | '"' :: rest =>
    match scanJsString rest with
    | some (content, []) => some (String.mk content)
    | _ => none
  | _ => none

/-- One piece of JavaScript the bridge injects into the surface
(`webViewRef.current.injectJavaScript`). `storeValueEnc` carries the two
string literals the source splices into
`window.__sierraSyncStorage[<key literal>] = <value literal>;` — i.e. the
`JSON.stringify`-encoded key and value. `resolveCallback` is
`window.__sierraResolveCallback(callbackId, value)` or
`(callbackId, null, error)`. -/
inductive Injection where
  | storeValueEnc (encodedKey encodedValue : String)
  | clearMirror
  | resolveCallback (callbackId : String) (value : Option String)
      (error : Option String)
deriving DecidableEq, Repr

/-- Execute the single-key mirror statement the bridge injects for a
`storeValue` message: each spliced literal must evaluate as one complete JS
string literal, and then the mirror object gets that one key set. `none`
models a syntax error or a breakout (the statement not doing exactly one
assignment). -/
def execStoreValueInjection (mirror : StrRecord)
    (encodedKey encodedValue : String) : Option StrRecord :=
  match parseJsStringLit encodedKey, parseJsStringLit encodedValue with
  | some k, some v => some (recordSet mirror k v)
  | _, _ => none

/-- The `data` payload of a `storeValue` message as decoded from JSON: either
field may be absent. -/
structure StoreValueData where
  key : Option String
  value : Option String
deriving DecidableEq, Repr

/-- The `data` payload of a `transfer` message as decoded from JSON: every
field may be absent. -/
structure TransferPayload where
  isSynchronous : Option Bool
  isContactCenter : Option Bool
  data : Option Json

/-- What the bridge actually hands the host's `onConversationTransfer`
callback: a field-by-field copy of the message payload, absent fields staying
absent (`undefined`), with no defaulting applied. -/
structure DeliveredTransfer where
  isSynchronous : Option Bool
  isContactCenter : Option Bool
  data : Option Json

/-- `TransferData` from `src/models/ConversationTypes.ts`: the input of the
`ConversationTransfer` class constructor. -/
structure TransferData where
  isSynchronous : Option Bool
  isContactCenter : Option Bool
  data : Option Json

/-- `ConversationTransfer` from `src/models/ConversationTypes.ts`: all fields
are mandatory after construction. -/
structure ConversationTransfer where
  isSynchronous : Bool
  isContactCenter : Bool
  data : Json

/-- The `ConversationTransfer` class constructor: `data?.isSynchronous ||
false`, `data?.isContactCenter || false`, `data?.data || {}` — absent or
falsy fields default to `false` / the empty object. -/
def ConversationTransfer.construct (d : Option TransferData) :
    ConversationTransfer :=
  { isSynchronous := (d.bind (fun t => t.isSynchronous)).getD false
    isContactCenter := (d.bind (fun t => t.isContactCenter)).getD false
    data :=
      match d.bind (fun t => t.data) with
      | some j => if jsTruthy j then j else Json.obj []
      | none => Json.obj [] }

/-- An invocation of a host callback prop by the bridge. -/
inductive HostEvent where
  | conversationTransfer (t : DeliveredTransfer)
  | agentMessageEnd
  | endChat
  | secretExpiry (secretName callbackId : String)

/-- The environment `handleMessage` closes over: whether
`webViewRef.current` is non-null, and which optional host callbacks are
registered. -/
structure BridgeEnv where
  hasWebView : Bool
  hasSecretHandler : Bool
  hasTransferCallback : Bool
deriving DecidableEq, Repr

/-- A `WebViewMessage` after `JSON.parse` succeeded: the tagged union from
`src/components/SierraAgentView.tsx`, with `unknown` for a well-formed
message whose `type` matches no case, and optional payloads since JSON
carries no type guarantees. -/
inductive WebViewMessage where
  | storeValue (data : Option StoreValueData)
  | clearStorage
  | transfer (data : Option TransferPayload)
  | agentMessageEnd
  | onEndChat
  | onSecretExpiry (secretName callbackId : String)
  | unknown

/-- The outcome of `JSON.parse(event.nativeEvent.data)`: the parse throws,
or yields a message. -/
inductive DecodedInput where
  | decodeFailure
  | msg (m : WebViewMessage)

/-- Everything observable about one `handleMessage` call: the storage after
it, the adapter calls the storage scheduled, the scripts injected into the
surface, and the host callbacks invoked. -/
structure HandleResult where
  storage : ConversationStorage
  adapterCalls : List AdapterCall
  injections : List Injection
  events : List HostEvent

/-- The body of the `switch` in `handleMessage`, before the surrounding
`try`/`catch`. `Except.error` models a runtime exception escaping the switch
(the only throwing site reachable here is `message.data.isSynchronous` when
a transfer message's `data` is absent and a transfer callback is
registered; `f?.(args)` short-circuits before evaluating its arguments). -/
def handleMessageBody (env : BridgeEnv) (m : WebViewMessage)
    (s : ConversationStorage) : Except String HandleResult :=
  match m with
  | WebViewMessage.storeValue d =>
    match d with
    | some dd =>
      match dd.key, dd.value with
      | some k, some v =>
        if k = "" then Except.ok ⟨s, [], [], []⟩
        else
          let r := s.setItem k v
          Except.ok
            ⟨r.1, r.2,
              if env.hasWebView then
                [Injection.storeValueEnc (jsonEscapeString k) (jsonEscapeString v)]
              else [],
              []⟩
      | _, _ => Except.ok ⟨s, [], [], []⟩
    | none => Except.ok ⟨s, [], [], []⟩
  | WebViewMessage.clearStorage =>
    let r := s.clear
    Except.ok ⟨r.1, r.2, if env.hasWebView then [Injection.clearMirror] else [], []⟩
  | WebViewMessage.transfer d =>
    if env.hasTransferCallback then
      match d with
      | none => Except.error "TypeError: cannot read properties of undefined"
      | some dd =>
        Except.ok
          ⟨s, [], [],
            [HostEvent.conversationTransfer
              ⟨dd.isSynchronous, dd.isContactCenter, dd.data⟩]⟩
    else Except.ok ⟨s, [], [], []⟩
  | WebViewMessage.agentMessageEnd =>
    Except.ok ⟨s, [], [], [HostEvent.agentMessageEnd]⟩
  | WebViewMessage.onEndChat =>
    let r := s.clear
    Except.ok
      ⟨r.1, r.2, if env.hasWebView then [Injection.clearMirror] else [],
        [HostEvent.endChat]⟩
  | WebViewMessage.onSecretExpiry secretName callbackId =>
    if env.hasSecretHandler then
      Except.ok ⟨s, [], [], [HostEvent.secretExpiry secretName callbackId]⟩
    else
      Except.ok
        ⟨s, [],
          if env.hasWebView then
            [Injection.resolveCallback callbackId none none]
          else [],
          []⟩
  | WebViewMessage.unknown => Except.ok ⟨s, [], [], []⟩

/-- `handleMessage` as the caller sees it: the `try`/`catch` turns a decode
failure or any exception from the switch into a logged no-op, so the handler
never throws. -/
def handleMessage (env : BridgeEnv) (input : DecodedInput)
    (s : ConversationStorage) : HandleResult :=
  match input with
  | DecodedInput.decodeFailure => ⟨s, [], [], []⟩
  | DecodedInput.msg m =>
    match handleMessageBody env m s with
    | Except.ok r => r
    | Except.error _ => ⟨s, [], [], []⟩

/-- Sequential processing of a stream of inbound messages, accumulating the
observable effects in arrival order. -/
def handleMany (env : BridgeEnv) (inputs : List DecodedInput)
    (s : ConversationStorage) : HandleResult :=
  match inputs with
  | [] => ⟨s, [], [], []⟩
  | i :: rest =>
    let r := handleMessage env i s
    let r2 := handleMany env rest r.storage
    ⟨r2.storage, r.adapterCalls ++ r2.adapterCalls,
      r.injections ++ r2.injections, r.events ++ r2.events⟩

/-! ### Association-list lemmas for the JS object model -/

theorem recordGet_recordSet_self (c : StrRecord) (k v : String) :
    recordGet (recordSet c k v) k = some v := by
  induction c with
  | nil => simp [recordSet, recordGet]
  | cons kv rest ih =>
    by_cases h : kv.1 = k
    · simp [recordSet, recordGet, h]
    · simp [recordSet, recordGet, h, ih]

theorem recordGet_recordSet_other (c : StrRecord) (k k2 v : String)
    (h : ¬k = k2) : recordGet (recordSet c k v) k2 = recordGet c k2 := by
  induction c with
  | nil => simp [recordSet, recordGet, h]
  | cons kv rest ih =>
    by_cases hk : kv.1 = k
    · simp [recordSet, recordGet, hk, h]
    · simp [recordSet, recordGet, hk, ih]

/-! ### The JSON string-escape roundtrip -/

theorem hexVal_hexDigitChar (n : Nat) (h : n < 16) :
    hexVal (hexDigitChar n) = some n := by
  interval_cases n <;> decide

theorem scanJsString_escapeChar (c : Char) (rest : List Char) :
    scanJsString (escapeChar c ++ rest) =
      (scanJsString rest).map (fun r => (c :: r.1, r.2)) := by
  by_cases h1 : c = '"'
  · subst h1; rw [escapeChar]; simp only [if_pos rfl]
    rw [scanJsString.eq_def]; simp
  by_cases h2 : c = '\\'
  · subst h2; rw [escapeChar]; simp only [if_neg h1, if_pos rfl]
    rw [scanJsString.eq_def]; simp
  by_cases h3 : c = '\n'
  · subst h3; rw [escapeChar]; simp only [if_neg h1, if_neg h2, if_pos rfl]
    rw [scanJsString.eq_def]; simp
  by_cases h4 : c = '\r'
  · subst h4; rw [escapeChar]; simp only [if_neg h1, if_neg h2, if_neg h3, if_pos rfl]
    rw [scanJsString.eq_def]; simp
  by_cases h5 : c = '\t'
  · subst h5; rw [escapeChar]
    simp only [if_neg h1, if_neg h2, if_neg h3, if_neg h4, if_pos rfl]
    rw [scanJsString.eq_def]; simp
  by_cases h6 : c = Char.ofNat 8
  · subst h6; rw [escapeChar]
    simp only [if_neg h1, if_neg h2, if_neg h3, if_neg h4, if_neg h5, if_pos rfl]
    rw [scanJsString.eq_def]; simp
  by_cases h7 : c = Char.ofNat 12
  · subst h7; rw [escapeChar]
    simp only [if_neg h1, if_neg h2, if_neg h3, if_neg h4, if_neg h5, if_neg h6, if_pos rfl]
    rw [scanJsString.eq_def]; simp
  by_cases h8 : c.toNat < 32
  · rw [escapeChar]
    simp only [if_neg h1, if_neg h2, if_neg h3, if_neg h4, if_neg h5, if_neg h6, if_neg h7,
      if_pos h8]
    have hd : c.toNat / 16 < 16 := Nat.div_lt_of_lt_mul (by omega)
    have hm : c.toNat % 16 < 16 := Nat.mod_lt _ (by norm_num)
    have h0 : hexVal '0' = some 0 := by decide
    rw [scanJsString.eq_def]
    simp [h0, hexVal_hexDigitChar _ hd, hexVal_hexDigitChar _ hm]
    have ht : 16 * (c.toNat / 16) + c.toNat % 16 = c.toNat := by omega
    rw [ht, Char.ofNat_toNat]
  · rw [escapeChar]
    simp only [if_neg h1, if_neg h2, if_neg h3, if_neg h4, if_neg h5, if_neg h6, if_neg h7,
      if_neg h8]
    rw [scanJsString.eq_def]
    simp [h1, h2, h8]

theorem scanJsString_escapeList (cs : List Char) (tail : List Char) :
    scanJsString (escapeList cs ++ '"' :: tail) = some (cs, tail) := by
  induction cs with
  | nil =>
    rw [escapeList, List.nil_append, scanJsString.eq_def]
    simp
  | cons c cs ih =>
    rw [escapeList, List.append_assoc, scanJsString_escapeChar, ih]
    rfl

/-- `JSON.stringify` on a string, spliced into injected code and evaluated
back as a JS string literal, yields exactly the original string, with nothing
left over after the literal. -/
theorem parseJsStringLit_jsonEscapeString (s : String) :
    parseJsStringLit (jsonEscapeString s) = some s := by
  show (match scanJsString (escapeList s.data ++ '"' :: []) with
    | some (content, []) => some (String.mk content)
    | _ => none) = some s
  rw [scanJsString_escapeList]

/-! ### Claim theorems -/

/-- C1: for every mode, key and value, `setItem` followed by `getItem` on the
same key returns the value iff the mode is not NONE; under NONE the read
returns absent, the state (hence the cache) is unchanged, and the write
schedules nothing — a silently accepted no-op, not an error. -/
theorem setItem_getItem_iff_mode_not_none (s : ConversationStorage)
    (k v : String) :
    (((s.setItem k v).1.getItem k = some v) ↔ s.mode ≠ PersistenceMode.NONE) ∧
    (s.mode = PersistenceMode.NONE →
      (s.setItem k v).1.getItem k = none ∧ s.setItem k v = (s, [])) := by
  by_cases h : s.mode = PersistenceMode.NONE
  · simp [ConversationStorage.setItem, ConversationStorage.getItem, h]
  · constructor
    · simp only [ConversationStorage.setItem, if_neg h]
      split
      · simp [ConversationStorage.getItem, h, recordGet_recordSet_self]
      · simp [ConversationStorage.getItem, h, recordGet_recordSet_self]
    · intro hn; exact absurd hn h

/-- C2: constructing an `Agent` with DISK persistence and no storage adapter
throws the configuration error; and whenever construction succeeds, the
storage keeps the requested persistence mode — it is never silently
downgraded. -/
theorem agent_disk_without_adapter_fails (config : AgentConfig)
    (h : config.persistence = PersistenceMode.DISK) :
    (∃ e, Agent.construct config false = Except.error e) ∧
    (∀ (hasAdapter : Bool) (st : AgentState),
      Agent.construct config hasAdapter = Except.ok st →
      st.storage.mode = config.persistence) := by
  constructor
  · exact
      ⟨"storageAdapter is required for PersistenceMode.DISK. Either provide a storage adapter (e.g., AsyncStorage), or use PersistenceMode.MEMORY or PersistenceMode.NONE.",
        by rw [Agent.construct, if_pos ⟨h, rfl⟩]⟩
  · intro hasAdapter st hok
    rw [Agent.construct] at hok
    split at hok
    · cases hok
    · cases hok; rfl

/-- Witness for C2 at a concrete DISK configuration. -/
theorem agent_disk_without_adapter_fails_witness :
    (∃ e, Agent.construct ⟨"https://sierra.chat", "tok", PersistenceMode.DISK⟩ false =
        Except.error e) ∧
    (∀ (hasAdapter : Bool) (st : AgentState),
      Agent.construct ⟨"https://sierra.chat", "tok", PersistenceMode.DISK⟩ hasAdapter =
        Except.ok st →
      st.storage.mode = PersistenceMode.DISK) :=
  agent_disk_without_adapter_fails
    ⟨"https://sierra.chat", "tok", PersistenceMode.DISK⟩ rfl

/-- C3: whatever the adapter and `JSON.parse` do at DISK load time — the read
rejects, the blob fails to parse, or it parses to a non-object (arrays
included) — the load surfaces no failure (`Except.ok`, so `waitForLoad`
resolves) and the cache is left empty. -/
theorem loadFromDisk_degrades_to_empty_cache (read : DiskReadOutcome)
    (parse : String → Option Json)
    (h : read = DiskReadOutcome.rejects ∨
      (∃ s, read = DiskReadOutcome.value (some s) ∧ ¬s = "" ∧ parse s = none) ∨
      (∃ s j, read = DiskReadOutcome.value (some s) ∧ ¬s = "" ∧ parse s = some j ∧
        isPlainObject j = false)) :
    loadFromDisk read parse = Except.ok [] ∧
    ∀ (r : DiskReadOutcome) (p : String → Option Json),
      ∃ c, loadFromDisk r p = Except.ok c := by
  constructor
  · rcases h with h | ⟨s, hr, hs, hp⟩ | ⟨s, j, hr, hs, hp, hobj⟩
    · subst h; rfl
    · subst hr
      rw [loadFromDisk, loadFromDiskBody, if_neg hs, hp]
    · subst hr
      rw [loadFromDisk, loadFromDiskBody, if_neg hs, hp]
      simp [hobj]
  · intro r p
    rw [loadFromDisk]
    split
    · exact ⟨[], rfl⟩
    · exact ⟨_, rfl⟩

/-- Witness for C3: a rejecting adapter read (and a parse that always throws)
still yields a resolved load with an empty cache. -/
theorem loadFromDisk_degrades_to_empty_cache_witness :
    loadFromDisk DiskReadOutcome.rejects (fun _ => none) = Except.ok [] ∧
    ∀ (r : DiskReadOutcome) (p : String → Option Json),
      ∃ c, loadFromDisk r p = Except.ok c :=
  loadFromDisk_degrades_to_empty_cache DiskReadOutcome.rejects (fun _ => none)
    (Or.inl rfl)

/-- C4: the `storeValue` handler embeds the key and value as `JSON.stringify`
literals, and executing the injected assignment (which requires each spliced
text to evaluate as one complete string literal — a breakout yields `none`)
sets exactly the original key to exactly the original value on the mirror
object, for every value string, quotes and backslashes included. -/
theorem storeValue_injection_serialization_safe (env : BridgeEnv)
    (s : ConversationStorage) (mirror : StrRecord) (k v : String)
    (hk : ¬k = "") (hw : env.hasWebView = true) :
    (handleMessage env
        (DecodedInput.msg (WebViewMessage.storeValue (some ⟨some k, some v⟩)))
        s).injections =
      [Injection.storeValueEnc (jsonEscapeString k) (jsonEscapeString v)] ∧
    execStoreValueInjection mirror (jsonEscapeString k) (jsonEscapeString v) =
      some (recordSet mirror k v) := by
  constructor
  · rw [handleMessage, handleMessageBody]
    simp [hk, hw]
  · rw [execStoreValueInjection, parseJsStringLit_jsonEscapeString,
      parseJsStringLit_jsonEscapeString]

/-- Witness for C4 at a value holding a double-quote and a backslash. -/
theorem storeValue_injection_serialization_safe_witness :
    (handleMessage ⟨true, false, false⟩
        (DecodedInput.msg (WebViewMessage.storeValue (some ⟨some "a", some "\"\\"⟩)))
        (ConversationStorage.construct PersistenceMode.MEMORY "sk" false)).injections =
      [Injection.storeValueEnc (jsonEscapeString "a") (jsonEscapeString "\"\\")] ∧
    execStoreValueInjection [] (jsonEscapeString "a") (jsonEscapeString "\"\\") =
      some [("a", "\"\\")] :=
  storeValue_injection_serialization_safe ⟨true, false, false⟩
    (ConversationStorage.construct PersistenceMode.MEMORY "sk" false) [] "a" "\"\\"
    (by decide) rfl

/-- C5 (the code at the failing input): a transfer message whose `data.data`
is omitted is delivered to the host callback as a raw field copy with `data`
still absent (`undefined`), whereas the `ConversationTransfer` class
constructor — the documented defaulting behaviour — would have produced the
empty object. -/
theorem transfer_data_omitted_is_delivered_absent :
    (handleMessage ⟨true, false, true⟩
        (DecodedInput.msg (WebViewMessage.transfer (some ⟨some true, some true, none⟩)))
        (ConversationStorage.construct PersistenceMode.MEMORY "sk" false)).events =
      [HostEvent.conversationTransfer ⟨some true, some true, none⟩] ∧
    (ConversationTransfer.construct (some ⟨some true, some true, none⟩)).data =
      Json.obj [] ∧
    (ConversationTransfer.construct none).isSynchronous = false ∧
    (ConversationTransfer.construct none).isContactCenter = false :=
  ⟨rfl, rfl, rfl, rfl⟩

/-- C6: an `onSecretExpiry` message with no registered host handler makes the
bridge emit exactly one correlation-resolve injection, calling the surface
resolver with the message's `callbackId` and the value `null` and no error
argument; no host callback fires and the storage is untouched. -/
theorem secret_expiry_no_handler_resolves_null (env : BridgeEnv)
    (s : ConversationStorage) (secretName callbackId : String)
    (hh : env.hasSecretHandler = false) (hw : env.hasWebView = true) :
    (handleMessage env
        (DecodedInput.msg (WebViewMessage.onSecretExpiry secretName callbackId)) s) =
      ⟨s, [], [Injection.resolveCallback callbackId none none], []⟩ := by
  rw [handleMessage, handleMessageBody]
  simp [hh, hw]

/-- Witness for C6 at a concrete message. -/
theorem secret_expiry_no_handler_resolves_null_witness :
    (handleMessage ⟨true, false, false⟩
        (DecodedInput.msg (WebViewMessage.onSecretExpiry "auth" "cb1"))
        (ConversationStorage.construct PersistenceMode.MEMORY "sk" false)) =
      ⟨ConversationStorage.construct PersistenceMode.MEMORY "sk" false, [],
        [Injection.resolveCallback "cb1" none none], []⟩ :=
  secret_expiry_no_handler_resolves_null ⟨true, false, false⟩
    (ConversationStorage.construct PersistenceMode.MEMORY "sk" false) "auth" "cb1"
    rfl rfl

/-- C7: under DISK with an adapter, every `setItem` schedules one adapter
write of the entire serialized cache (not a delta); in particular, after two
writes to two different keys starting from a fresh DISK storage, the blob
handed to the last adapter write serializes a cache holding both pairs. -/
theorem disk_setItem_mirrors_entire_cache (sk k1 v1 k2 v2 : String)
    (hne : ¬k1 = k2) :
    (∀ (s : ConversationStorage), s.mode = PersistenceMode.DISK →
      s.hasAdapter = true → ∀ k v,
      (s.setItem k v).2 =
        [AdapterCall.set s.storageKey (serializeCache (recordSet s.cache k v))]) ∧
    ((((ConversationStorage.construct PersistenceMode.DISK sk true).setItem
        k1 v1).1.setItem k2 v2).1.cache = [(k1, v1), (k2, v2)] ∧
      (((ConversationStorage.construct PersistenceMode.DISK sk true).setItem
        k1 v1).1.setItem k2 v2).2 =
        [AdapterCall.set sk (serializeCache [(k1, v1), (k2, v2)])] ∧
      recordGet [(k1, v1), (k2, v2)] k1 = some v1 ∧
      recordGet [(k1, v1), (k2, v2)] k2 = some v2) := by
  have hstep : ∀ (s : ConversationStorage), s.mode = PersistenceMode.DISK →
      s.hasAdapter = true → ∀ k v,
      s.setItem k v =
        ({ s with cache := recordSet s.cache k v },
          [AdapterCall.set s.storageKey (serializeCache (recordSet s.cache k v))]) := by
    intro s hm ha k v
    rw [ConversationStorage.setItem, if_neg (by rw [hm]; intro h; cases h),
      if_pos ⟨hm, ha⟩]
  have hne2 : ¬k2 = k1 := fun hh => hne hh.symm
  refine ⟨fun s hm ha k v => by rw [hstep s hm ha k v], ?_⟩
  rw [hstep _ rfl rfl k1 v1, hstep _ rfl rfl k2 v2]
  simp [ConversationStorage.construct, recordSet, recordGet, hne, hne2]

/-- Witness for C7 at two concrete distinct keys. -/
theorem disk_setItem_mirrors_entire_cache_witness :
    (∀ (s : ConversationStorage), s.mode = PersistenceMode.DISK →
      s.hasAdapter = true → ∀ k v,
      (s.setItem k v).2 =
        [AdapterCall.set s.storageKey (serializeCache (recordSet s.cache k v))]) ∧
    ((((ConversationStorage.construct PersistenceMode.DISK "sk" true).setItem
        "a" "1").1.setItem "b" "2").1.cache = [("a", "1"), ("b", "2")] ∧
      (((ConversationStorage.construct PersistenceMode.DISK "sk" true).setItem
        "a" "1").1.setItem "b" "2").2 =
        [AdapterCall.set "sk" (serializeCache [("a", "1"), ("b", "2")])] ∧
      recordGet [("a", "1"), ("b", "2")] "a" = some "1" ∧
      recordGet [("a", "1"), ("b", "2")] "b" = some "2") :=
  disk_setItem_mirrors_entire_cache "sk" "a" "1" "b" "2" (by decide)

/-- C8: a decode failure, an unrecognised message kind, and an in-switch
exception (a transfer message with its payload absent) all leave the storage
unchanged and emit nothing; dropping a malformed message from a stream does
not affect the processing of the surrounding messages. -/
theorem bridge_never_throws_malformed_ignored (env : BridgeEnv)
    (s : ConversationStorage) (xs ys : List DecodedInput) :
    handleMessage env DecodedInput.decodeFailure s = ⟨s, [], [], []⟩ ∧
    handleMessage env (DecodedInput.msg WebViewMessage.unknown) s = ⟨s, [], [], []⟩ ∧
    handleMessage env (DecodedInput.msg (WebViewMessage.transfer none)) s =
      ⟨s, [], [], []⟩ ∧
    handleMany env (xs ++ DecodedInput.decodeFailure :: ys) s =
      handleMany env (xs ++ ys) s := by
  have hfail : ∀ t, handleMessage env DecodedInput.decodeFailure t = ⟨t, [], [], []⟩ :=
    fun t => rfl
  have htrans : handleMessage env (DecodedInput.msg (WebViewMessage.transfer none)) s =
      ⟨s, [], [], []⟩ := by
    rw [handleMessage, handleMessageBody]
    by_cases h : env.hasTransferCallback = true
    · simp [h]
    · simp [h]
  have hmany : ∀ (zs : List DecodedInput) (t : ConversationStorage),
      handleMany env (zs ++ DecodedInput.decodeFailure :: ys) t =
        handleMany env (zs ++ ys) t := by
    intro zs
    induction zs with
    | nil =>
      intro t
      rw [List.nil_append, List.nil_append, handleMany, hfail t]
      simp
    | cons z zs ih =>
      intro t
      rw [List.cons_append, List.cons_append, handleMany, handleMany, ih]
  exact ⟨hfail s, rfl, htrans, hmany xs s⟩

/-- C9: a `ConversationStorage` built directly in DISK mode with no adapter
starts no disk load (`waitForLoad` resolves immediately), its `setItem` still
updates the cache synchronously but schedules no adapter write, its `clear`
schedules no adapter removal, and every observable operation agrees with the
same-state MEMORY-mode instance. -/
theorem disk_storage_without_adapter_acts_as_memory (sk k v : String)
    (c : StrRecord) :
    (ConversationStorage.construct PersistenceMode.DISK sk false).loadStarted
        = false ∧
    (ConversationStorage.construct PersistenceMode.DISK sk false).waitForLoadImmediate
        = true ∧
    ((⟨PersistenceMode.DISK, c, false, sk, false⟩ :
        ConversationStorage).setItem k v).1.cache = recordSet c k v ∧
    ((⟨PersistenceMode.DISK, c, false, sk, false⟩ :
        ConversationStorage).setItem k v).2 = [] ∧
    ((⟨PersistenceMode.DISK, c, false, sk, false⟩ :
        ConversationStorage).clear).2 = [] ∧
    (⟨PersistenceMode.DISK, c, false, sk, false⟩ :
        ConversationStorage).getItem k =
      (⟨PersistenceMode.MEMORY, c, false, sk, false⟩ :
        ConversationStorage).getItem k ∧
    ((⟨PersistenceMode.DISK, c, false, sk, false⟩ :
        ConversationStorage).setItem k v).1.cache =
      ((⟨PersistenceMode.MEMORY, c, false, sk, false⟩ :
        ConversationStorage).setItem k v).1.cache ∧
    ((⟨PersistenceMode.DISK, c, false, sk, false⟩ :
        ConversationStorage).setItem k v).2 =
      ((⟨PersistenceMode.MEMORY, c, false, sk, false⟩ :
        ConversationStorage).setItem k v).2 ∧
    ((⟨PersistenceMode.DISK, c, false, sk, false⟩ :
        ConversationStorage).clear).1.cache =
      ((⟨PersistenceMode.MEMORY, c, false, sk, false⟩ :
        ConversationStorage).clear).1.cache ∧
    ((⟨PersistenceMode.DISK, c, false, sk, false⟩ :
        ConversationStorage).clear).2 =
      ((⟨PersistenceMode.MEMORY, c, false, sk, false⟩ :
        ConversationStorage).clear).2 := by
  refine ⟨rfl, rfl, ?_⟩
  simp [ConversationStorage.setItem, ConversationStorage.clear,
    ConversationStorage.getItem]

/-- C10: a `storeValue` message whose payload or key is missing, or whose key
is the empty string, mutates nothing and injects nothing — the JS truthiness
guard drops it even when a value is present — while a present empty-string
value passes the guard and the write and injection go through. -/
theorem storeValue_empty_key_dropped (env : BridgeEnv)
    (s : ConversationStorage) (k v : String) (hk : ¬k = "")
    (hw : env.hasWebView = true) :
    handleMessage env (DecodedInput.msg (WebViewMessage.storeValue none)) s =
      ⟨s, [], [], []⟩ ∧
    handleMessage env
        (DecodedInput.msg (WebViewMessage.storeValue (some ⟨none, some v⟩))) s =
      ⟨s, [], [], []⟩ ∧
    handleMessage env
        (DecodedInput.msg (WebViewMessage.storeValue (some ⟨some "", some v⟩))) s =
      ⟨s, [], [], []⟩ ∧
    handleMessage env
        (DecodedInput.msg (WebViewMessage.storeValue (some ⟨some k, none⟩))) s =
      ⟨s, [], [], []⟩ ∧
    (handleMessage env
        (DecodedInput.msg (WebViewMessage.storeValue (some ⟨some k, some ""⟩))) s).storage =
      (s.setItem k "").1 ∧
    (handleMessage env
        (DecodedInput.msg (WebViewMessage.storeValue (some ⟨some k, some ""⟩))) s).injections =
      [Injection.storeValueEnc (jsonEscapeString k) (jsonEscapeString "")] := by
  refine ⟨rfl, rfl, ?_, rfl, ?_, ?_⟩
  · rw [handleMessage, handleMessageBody]; simp
  · rw [handleMessage, handleMessageBody]; simp [hk]
  · rw [handleMessage, handleMessageBody]; simp [hk, hw]

/-- Witness for C10 at a concrete non-empty key. -/
theorem storeValue_empty_key_dropped_witness :
    handleMessage ⟨true, false, false⟩
        (DecodedInput.msg (WebViewMessage.storeValue none))
        (ConversationStorage.construct PersistenceMode.MEMORY "sk" false) =
      ⟨ConversationStorage.construct PersistenceMode.MEMORY "sk" false, [], [], []⟩ ∧
    handleMessage ⟨true, false, false⟩
        (DecodedInput.msg (WebViewMessage.storeValue (some ⟨none, some "x"⟩)))
        (ConversationStorage.construct PersistenceMode.MEMORY "sk" false) =
      ⟨ConversationStorage.construct PersistenceMode.MEMORY "sk" false, [], [], []⟩ ∧
    handleMessage ⟨true, false, false⟩
        (DecodedInput.msg (WebViewMessage.storeValue (some ⟨some "", some "x"⟩)))
        (ConversationStorage.construct PersistenceMode.MEMORY "sk" false) =
      ⟨ConversationStorage.construct PersistenceMode.MEMORY "sk" false, [], [], []⟩ ∧
    handleMessage ⟨true, false, false⟩
        (DecodedInput.msg (WebViewMessage.storeValue (some ⟨some "a", none⟩)))
        (ConversationStorage.construct PersistenceMode.MEMORY "sk" false) =
      ⟨ConversationStorage.construct PersistenceMode.MEMORY "sk" false, [], [], []⟩ ∧
    (handleMessage ⟨true, false, false⟩
        (DecodedInput.msg (WebViewMessage.storeValue (some ⟨some "a", some ""⟩)))
        (ConversationStorage.construct PersistenceMode.MEMORY "sk" false)).storage =
      ((ConversationStorage.construct PersistenceMode.MEMORY "sk" false).setItem
        "a" "").1 ∧
    (handleMessage ⟨true, false, false⟩
        (DecodedInput.msg (WebViewMessage.storeValue (some ⟨some "a", some ""⟩)))
        (ConversationStorage.construct PersistenceMode.MEMORY "sk" false)).injections =
      [Injection.storeValueEnc (jsonEscapeString "a") (jsonEscapeString "")] :=
  storeValue_empty_key_dropped ⟨true, false, false⟩
    (ConversationStorage.construct PersistenceMode.MEMORY "sk" false) "a" "x"
    (by decide) rfl

end SierraSDK
